import Mathlib

/-!
Verification of the NetSpect network-analysis CLI.

This file gives a shallow embedding, in Lean 4, of the parts of the
NetSpect source that the specification talks about:

* `netspect/cli.py`: the port-specification parser `_parse_ports` and the
  `scan` command's control flow;
* `netspect/core/discovery.py`: `ping_host` and `scan_ports`;
* `netspect/core/dns_utils.py`: `resolve_hostname` and its per-record-type
  answer formatting.

Network and DNS effects are modelled by explicit environments (a resolver
map, a per-port connectivity predicate, a DNS query oracle, a list of ping
responses).  Python exceptions that escape a function are modelled with
`Except`.  Two slips in the source are modelled faithfully: `discovery.py`
and `dns_utils.py` call `print_warning` without importing it from
`netspect.utils.display`, so the code paths that reach those calls raise
`NameError` (`PyError.nameErrorNotDefined`); and the reply line of
`ping_host` (`discovery.py` line 33) calls `response.message.split()` on a
`pythonping` `Message` object, which raises `AttributeError` on every
successful response (`PyError.attributeErrorMessageSplit`).
-/

deriving instance DecidableEq for Except

namespace NetSpect

/-- Python exceptions that escape an embedded function (or, for
`ping_host`, reach its own `except Exception` handler). -/
inductive PyError where
  /-- `NameError: name 'print_warning' is not defined` — raised on the code
  paths that call `print_warning`, which is not imported in
  `discovery.py` nor in `dns_utils.py`. -/
  | nameErrorNotDefined
  /-- The exception raised by the reply line `discovery.py` line 33:
  `response.message` is a `pythonping` `Message` object (or `None`), not a
  `str`, so `response.message.split()` raises `AttributeError` on every
  successful response (and even on a string message, the
  `split()[4].split('=')[1]` TTL parse would raise `IndexError`). -/
  | attributeErrorMessageSplit
  deriving DecidableEq, Repr

/-! ## Display helpers (`netspect/utils/display.py`)

Each `print_*` helper wraps its message in Rich markup exactly as
`display.py` does; the embedding returns the printed line as a string. -/

/-- `display.print_success`. -/
def print_success (message : String) : String :=
  "[bold green]✅ " ++ message ++ "[/bold green]"

/-- `display.print_error`. -/
def print_error (message : String) : String :=
  "[bold red]❌ " ++ message ++ "[/bold red]"

/-- `display.print_info`. -/
def print_info (message : String) : String :=
  "[bold blue]ℹ️ " ++ message ++ "[/bold blue]"

/-! ## Models of the Python string built-ins used by `cli.py`

`String.splitOn`, `String.trim` and `String.toNat?` from the Lean library
are defined by well-founded recursion and do not reduce inside the kernel,
so the Python built-ins are modelled here by structurally recursive
functions on the underlying character lists. -/

/-- Whitespace for Python's `str.strip()`. -/
def isPySpace (c : Char) : Bool :=
  c = ' ' || c = '\t' || c = '\n' || c = '\r' || c = '\x0b' || c = '\x0c'

/-- Python's `str.strip()` on a character list. -/
def stripChars (l : List Char) : List Char :=
  ((l.dropWhile isPySpace).reverse.dropWhile isPySpace).reverse

/-- Python's `s.strip()`. -/
def pyStrip (s : String) : String := String.mk (stripChars s.data)

/-- Splitting a character list at every occurrence of `c`; Python's
`s.split(c)` semantics (`[] ↦ [[]]`, separators at the ends produce empty
pieces). -/
def splitOnChar (c : Char) : List Char → List (List Char)
  | [] => [[]]
  | x :: xs =>
    match splitOnChar c xs with
    | [] => if x = c then [[], []] else [[x]]
    | piece :: pieces =>
      if x = c then [] :: piece :: pieces else (x :: piece) :: pieces

/-- Python's `s.split(sep)` for a one-character separator. -/
def pySplit (s : String) (c : Char) : List String :=
  (splitOnChar c s.data).map String.mk

/-- Splitting at the first occurrence of `c` only; Python's
`s.split(c, 1)` when `c` occurs in `s`. -/
def splitOnceChar (c : Char) : List Char → Option (List Char × List Char)
  | [] => none
  | x :: xs =>
    if x = c then some ([], xs)
    else (splitOnceChar c xs).map (fun p => (x :: p.1, p.2))

/-- The numeric value of a run of decimal digits. -/
def digitsToNat (l : List Char) : Nat :=
  l.foldl (fun n c => n * 10 + (c.toNat - '0'.toNat)) 0

/-- Python's `int(s)` on a decimal string: surrounding whitespace is
stripped, one optional leading sign is accepted, and the rest must be a
non-empty run of digits; otherwise `ValueError` (here `none`). -/
def pyInt? (s : String) : Option Int :=
  match stripChars s.data with
  | '-' :: rest =>
    if rest ≠ [] ∧ rest.all Char.isDigit then some (-(digitsToNat rest : Int)) else none
  | '+' :: rest =>
    if rest ≠ [] ∧ rest.all Char.isDigit then some (digitsToNat rest : Int) else none
  | t => if t ≠ [] ∧ t.all Char.isDigit then some (digitsToNat t : Int) else none

/-! ## Port-specification parsing (`netspect/cli.py`, `_parse_ports`) -/

/-- The fixed default port list of `_parse_ports` (`cli.py` line 23). -/
def DEFAULT_PORTS : List Nat :=
  [21, 22, 23, 25, 53, 80, 110, 143, 443, 465, 587, 993, 995,
   3306, 3389, 5432, 5900, 8080, 8443]

/-- The message of `print_error` for a malformed range segment. -/
def rangeErrMsg (part : String) : String :=
  "Invalid port range: " ++ part ++ ". Must be numbers between 1-65535."

/-- The message of `print_error` for a malformed single-port segment. -/
def portErrMsg (part : String) : String :=
  "Invalid port number: " ++ part ++ ". Must be a number between 1-65535."

/-- One iteration of the `for part in parts` loop of `_parse_ports`
(`cli.py` lines 27–48).  The returned list holds the ports this segment
contributes to the accumulated set (`range(start, end+1)` for a range,
a singleton for a single port, nothing for a segment that is empty after
stripping); a malformed segment yields the error message passed to
`print_error` just before `typer.Exit(code=1)`. -/
def parsePart (partRaw : String) : Except String (List Nat) :=
  let part := pyStrip partRaw
  if part.data = [] then .ok []
  else if part.data.contains '-' then
    -- `start, end = part.split('-', 1)`
    match splitOnceChar '-' part.data with
    | none => .error (rangeErrMsg part)
    | some (startChars, endChars) =>
      match pyInt? (String.mk startChars), pyInt? (String.mk endChars) with
      | some startPort, some endPort =>
        if 0 < startPort ∧ startPort ≤ 65535 ∧ 0 < endPort ∧ endPort ≤ 65535
            ∧ startPort ≤ endPort then
          .ok (List.range' startPort.toNat (endPort.toNat + 1 - startPort.toNat))
        else
          .error (rangeErrMsg part)
      | _, _ =>
        .error (rangeErrMsg part)
  else
    match pyInt? part with
    | some portVal =>
      if 0 < portVal ∧ portVal ≤ 65535 then .ok [portVal.toNat]
      else .error (portErrMsg part)
    | none =>
      .error (portErrMsg part)

/-- The `for part in parts` loop of `_parse_ports`, accumulating the
ports contributed by each segment and aborting on the first malformed
segment (`print_error` + `typer.Exit(code=1)`). -/
def collectPorts : List String → List Nat → Except String (List Nat)
  | [], acc => .ok acc
  | part :: rest, acc =>
    match parsePart part with
    | .error e => .error e
    | .ok ps => collectPorts rest (acc ++ ps)

/-- `cli._parse_ports` (`cli.py` lines 20–52).  `none` or the empty string
(`if not port_str`) gives the default list; otherwise the comma-separated
segments are parsed in order, every malformed segment aborting the whole
parse; the accumulated set of ports (modelled as `dedup` of the collected
occurrences) is rejected when empty, and returned sorted ascending
(`sorted(list(ports))`). -/
def _parse_ports (portStr : Option String) : Except String (List Nat) :=
  match portStr with
  | none => .ok DEFAULT_PORTS
  | some s =>
    if s = "" then .ok DEFAULT_PORTS
    else
      match collectPorts (pySplit s ',') [] with
      | .error e => .error e
      | .ok collected =>
        if collected.dedup = [] then .error "No valid ports specified."
        else .ok (collected.dedup.insertionSort (· ≤ ·))

/-! ## Ping (`netspect/core/discovery.py`, `ping_host`)

`pythonping.ping` returns a list of responses; the embedding takes that
list (each response with its `success` flag and `time_elapsed_ms`) as an
input, together with the `count` argument.  The statistics the function
prints are returned in a `PingStats` record; they are only computed on the
`successful_pings > 0` branch, exactly as in the source.

The whole body of `ping_host` sits inside `try: ... except Exception as e:
print_error(...); return False`.  Inside the loop, the success branch
(lines 27–33) updates the accumulators and then prints the reply line,
which evaluates `response.message.split()`; `response.message` is a
`pythonping` `Message` object, not a `str`, so that line raises on every
successful response, the loop aborts, and the handler returns `False`.
The failure branch (lines 34–36) only prints `response.error_message`,
which is a real string, so it does not raise. -/

/-- One `Response` of the `ResponseList` returned by `pythonping.ping`. -/
structure PingResponse where
  success : Bool
  /-- `response.time_elapsed_ms`. -/
  rtt : ℚ
  deriving DecidableEq

/-- The loop state of `ping_host`: `total_rtt`, `successful_pings`,
`min_rtt` (initialised to `float('inf')`, modelled as `⊤`), `max_rtt`
(initialised to `0.0`). -/
structure PingAcc where
  totalRtt : ℚ
  successfulPings : Nat
  minRtt : WithTop ℚ
  maxRtt : ℚ
  deriving DecidableEq

/-- The initial loop state of `ping_host` (`discovery.py` lines 17–20). -/
def initPingAcc : PingAcc := ⟨0, 0, ⊤, 0⟩

/-- The `for response in response_list` loop (`discovery.py`
lines 26–36).  A successful response updates `total_rtt`,
`successful_pings`, `min_rtt` and `max_rtt` (lines 28–32), but the reply
line that follows (line 33) evaluates `response.message.split()` and
raises `AttributeError`, aborting the loop; the updated locals are lost
when the `except` handler takes over.  A failed response only prints
`response.error_message` (a string) and continues. -/
def pingLoop : List PingResponse → PingAcc → Except PyError PingAcc
  | [], acc => .ok acc
  | r :: rs, acc =>
    if r.success then .error .attributeErrorMessageSplit
    else pingLoop rs acc

/-- The statistics `ping_host` prints when `successful_pings > 0`
(`discovery.py` lines 38–44). -/
structure PingStats where
  sent : Nat
  received : Nat
  lost : Int
  lossPct : ℚ
  minRtt : WithTop ℚ
  maxRtt : ℚ
  avgRtt : ℚ
  deriving DecidableEq

/-- `discovery.ping_host` (`discovery.py` lines 10–51).  If an exception
escapes the loop (which happens on the first successful response, at the
line-33 reply print), the `except Exception` handler prints an error and
returns `False`, so no statistics are computed.  If the loop completes,
the function either reports statistics and returns `True`
(`successful_pings > 0`, lines 38–44 — unreachable, since any success
raises first), or reports no successful pings and returns `False`
(lines 45–47). -/
def ping_host (count : Nat) (responses : List PingResponse) :
    Bool × Option PingStats :=
  match pingLoop responses initPingAcc with
  | .error _ => (false, none)
  | .ok acc =>
    if 0 < acc.successfulPings then
      (true, some
        { sent := count
          received := acc.successfulPings
          lost := (count : Int) - acc.successfulPings
          lossPct := ((count : ℚ) - acc.successfulPings) / count * 100
          minRtt := acc.minRtt
          maxRtt := acc.maxRtt
          avgRtt := acc.totalRtt / acc.successfulPings })
    else (false, none)

/-! ## Port scanning (`netspect/core/discovery.py`, `scan_ports`) -/

/-- The network environment seen by `scan_ports`:
`resolve` models `socket.gethostbyname` (`none` = `socket.gaierror`),
`connect ip port` models `connect_ex((ip, port)) == 0`, and
`servByPort` models `socket.getservbyport(port, "tcp")` (`none` = the
`OSError`/other exception that the source swallows). -/
structure NetEnv where
  resolve : String → Option String
  connect : String → Nat → Bool
  servByPort : Nat → Option String

/-- The best-effort service name of an open port: the lookup result, or
`"unknown"` when the lookup raises (`discovery.py` lines 83–89). -/
def serviceName (env : NetEnv) (port : Nat) : String :=
  (env.servByPort port).getD "unknown"

/-- The `open_ports` list built by the scan loop (`discovery.py`
lines 77–93): one `(port, "open", service)` triple per port whose
`connect_ex` returned `0`, in the order the ports were probed. -/
def scanOpenRecords (env : NetEnv) (ip : String) (ports : List Nat) :
    List (Nat × String × String) :=
  ports.filterMap (fun p =>
    if env.connect ip p then some (p, "open", serviceName env p) else none)

/-- The `closed_ports_count` accumulated by the scan loop: the number of
probed ports whose connect attempt did not succeed. -/
def scanClosedCount (env : NetEnv) (ip : String) (ports : List Nat) : Nat :=
  (ports.filter (fun p => !(env.connect ip p))).length

/-- Python's `f"{port:<5}"`: the decimal digits left-justified in a field
of width 5. -/
def padPort (p : Nat) : String :=
  let s := toString p
  s ++ String.mk (List.replicate (5 - s.length) ' ')

/-- `discovery.scan_ports` (`discovery.py` lines 54–105).  The first
component is the list of lines printed (progress-bar UI aside); the second
is the returned value, `Except` capturing the `NameError` that the
`else: print_warning(...)` branch raises because `print_warning` is not
imported in `discovery.py`.  Each element of the returned list models the
Python tuple `(p, s)` from `return [(p, s) for p, s, _ in open_ports]` as
the list of its rendered components. -/
def scan_ports (env : NetEnv) (target : String) (ports : List Nat) :
    List String × Except PyError (List (List String)) :=
  match env.resolve target with
  | none =>
    ([print_error ("Cannot resolve hostname: " ++ target ++ ". Please check the name or use an IP address.")],
     .ok [])
  | some targetIp =>
    let headerLine := print_info ("Scanning " ++ target ++ " (" ++ targetIp ++ ") for "
      ++ toString ports.length ++ " port(s)...")
    let openRecs := scanOpenRecords env targetIp ports
    let closedCount := scanClosedCount env targetIp ports
    if openRecs = [] then
      -- `print_warning` is not imported in `discovery.py`: `NameError`
      -- before the summary line and the `return` are reached.
      ([headerLine], .error .nameErrorNotDefined)
    else
      (headerLine ::
        print_success ("\nOpen ports on " ++ target ++ " (" ++ targetIp ++ "):") ::
        openRecs.map (fun r =>
          "  [bold green]Port " ++ padPort r.1 ++ "[/bold green] (" ++ r.2.2 ++ ") is " ++ r.2.1) ++
        [print_info ("Summary: " ++ toString openRecs.length ++ " open, "
          ++ toString closedCount ++ " closed/filtered.")],
       .ok (openRecs.map (fun r => [toString r.1, r.2.1])))

/-- How an invocation of the `scan` CLI command ends. -/
inductive CmdOutcome where
  /-- Normal termination, or `typer.Exit(code)`. -/
  | exits (code : Nat)
  /-- An exception escaped the command body. -/
  | crash (e : PyError)
  deriving DecidableEq

/-- The `scan` command of `cli.py` (lines 81–89): parse the port
specification (`typer.Exit(code=1)` on a parse error), run
`discovery.scan_ports`, ignore its result, and end normally (exit
code 0). -/
def scanCommand (env : NetEnv) (target : String) (portsStr : Option String) :
    CmdOutcome :=
  match _parse_ports portsStr with
  | .error _ => .exits 1
  | .ok ports =>
    match (scan_ports env target ports).2 with
    | .error e => .crash e
    | .ok _ => .exits 0

/-! ## DNS lookups (`netspect/core/dns_utils.py`) -/

/-- One `rdata` of a DNS answer, carrying the fields `resolve_hostname`
reads.  Name fields hold the canonical absolute text of
`Name.to_text(omit_final_dot=False)`, i.e. with the trailing root-label
dot; `plain` holds `rdata.to_text(...)` for the A/AAAA/CNAME/NS branch. -/
inductive RData where
  | mx (preference : Nat) (exchange : String)
  | soa (mname rname : String) (serial : Nat)
  | txt (strings : List String)
  | srv (priority weight port : Nat) (target : String)
  | plain (text : String)
  deriving DecidableEq

/-- The outcome of `resolver.resolve(hostname, rtype)`. -/
inductive QueryOutcome where
  | answers (records : List RData)
  | nxdomain
  | noAnswer
  | timeout
  | failure (msg : String)
  deriving DecidableEq

/-- The DNS environment: what `resolver.resolve` yields for each
hostname/record-type pair. -/
structure DnsEnv where
  query : String → String → QueryOutcome

/-- `dns_utils.SUPPORTED_RECORD_TYPES`. -/
def SUPPORTED_RECORD_TYPES : List String :=
  ["A", "AAAA", "MX", "NS", "CNAME", "TXT", "SOA", "SRV"]

/-- `name.to_text(omit_final_dot=True)`: the canonical text with one
trailing root-label dot removed. -/
def omitFinalDot (s : String) : String :=
  if s.data.getLast? = some '.' then String.mk s.data.dropLast else s

/-- Python's `str.upper()` (ASCII suffices here). -/
def pyUpper (s : String) : String := String.mk (s.data.map Char.toUpper)

/-- Python's `" ".join(segments)`. -/
def joinSpace : List String → String
  | [] => ""
  | [s] => s
  | s :: rest => s ++ " " ++ joinSpace rest

/-- The per-record formatting of `resolve_hostname` (`dns_utils.py`
lines 26–43), dispatching on `r_type.upper()` exactly as the
`if`/`elif` chain does.  A record kind that cannot occur for the given
type renders as `""` (unreachable at run time).

The MX/SOA/SRV branches call `to_text(omit_final_dot=True)` on
`dns.name.Name` fields, whose `to_text` honours that parameter, so their
name components really are rendered without the trailing root-label dot.
The else branch (A/AAAA/CNAME/NS) instead calls
`rdata.to_text(omit_final_dot=True)` on the rdata itself; dnspython's
`Rdata.to_text(self, origin=None, relativize=True, **kw)` swallows the
keyword, so the rdata's canonical text is returned unchanged — for
NS/CNAME answers that is the absolute name including its trailing dot. -/
def formatAnswer (rtype : String) (r : RData) : String :=
  if rtype = "MX" then
    match r with
    | .mx preference exchange =>
      "Preference: " ++ toString preference ++ ", Exchange: " ++ omitFinalDot exchange
    | _ => ""
  else if rtype = "SOA" then
    match r with
    | .soa mname rname serial =>
      "MNAME: " ++ omitFinalDot mname ++ ", RNAME: " ++ omitFinalDot rname
        ++ ", Serial: " ++ toString serial
    | _ => ""
  else if rtype = "TXT" then
    match r with
    | .txt strings => joinSpace strings
    | _ => ""
  else if rtype = "SRV" then
    match r with
    | .srv priority weight port tgt =>
      "Priority: " ++ toString priority ++ ", Weight: " ++ toString weight
        ++ ", Port: " ++ toString port ++ ", Target: " ++ omitFinalDot tgt
    | _ => ""
  else
    match r with
    | .plain text => text
    | _ => ""

/-- One iteration of the `for r_type in record_types` loop of
`resolve_hostname` (`dns_utils.py` lines 19–55): the list of strings
appended to `results[r_type]`.  An unsupported type is skipped
(`continue`, nothing appended).  The `NoAnswer` handler calls
`print_warning`, which is not imported in `dns_utils.py`, so that branch
raises `NameError` instead of appending `"No Answer"`. -/
def queryType (env : DnsEnv) (hostname rtype : String) :
    Except PyError (List String) :=
  if pyUpper rtype ∈ SUPPORTED_RECORD_TYPES then
    match env.query hostname (pyUpper rtype) with
    | .answers records => .ok (records.map (formatAnswer (pyUpper rtype)))
    | .nxdomain => .ok ["NXDOMAIN"]
    | .noAnswer => .error .nameErrorNotDefined
    | .timeout => .ok ["Timeout"]
    | .failure msg => .ok ["Error: " ++ msg]
  else .ok []

/-- The `for r_type in record_types` loop of `resolve_hostname`,
building the `results` dictionary (as an association list in requested
order); an exception escaping one type's handler aborts the whole call. -/
def resolveTypes (env : DnsEnv) (hostname : String) :
    List String → List (String × List String) →
    Except PyError (List (String × List String))
  | [], acc => .ok acc
  | rtype :: rest, acc =>
    match queryType env hostname rtype with
    | .error e => .error e
    | .ok vals => resolveTypes env hostname rest (acc ++ [(rtype, vals)])

/-- `dns_utils.resolve_hostname` (`dns_utils.py` lines 9–72). -/
def resolve_hostname (env : DnsEnv) (hostname : String)
    (record_types : List String) :
    Except PyError (List (String × List String)) :=
  resolveTypes env hostname record_types []

/-! ## Concrete environments used to evaluate the code at specific inputs -/

/-- A network where every hostname resolves and every port accepts the
TCP connection; the service database has no entries. -/
def openEnv : NetEnv := ⟨fun _ => some "10.0.0.1", fun _ _ => true, fun _ => none⟩

/-- A network where every hostname resolves and every port refuses the
TCP connection. -/
def closedEnv : NetEnv := ⟨fun _ => some "127.0.0.1", fun _ _ => false, fun _ => none⟩

/-- A network where no hostname resolves (`socket.gaierror`). -/
def unresEnv : NetEnv := ⟨fun _ => none, fun _ _ => true, fun _ => none⟩

/-- A DNS world where `A` queries raise `dns.resolver.NoAnswer` and every
other query returns one plain answer. -/
def noAnswerEnv : DnsEnv :=
  ⟨fun _ rtype => if rtype = "A" then .noAnswer else .answers [.plain "192.0.2.1"]⟩

/-- Four ping responses: three successes with round-trip times 10, 20 and
30 ms, and one timeout. -/
def pingExample : List PingResponse :=
  [⟨true, 10⟩, ⟨true, 20⟩, ⟨true, 30⟩, ⟨false, 0⟩]

end NetSpect

namespace NetSpect

/-! ## Helper lemmas about the port-specification parser -/

theorem collectPorts_mem {parts : List String} :
    ∀ {acc c : List Nat}, collectPorts parts acc = .ok c →
      ∀ p, p ∈ c ↔ p ∈ acc ∨ ∃ part ∈ parts, ∃ ps, parsePart part = .ok ps ∧ p ∈ ps := by
  induction parts with
  | nil =>
    intro acc c h p
    cases h
    simp
  | cons part rest ih =>
    intro acc c h p
    unfold collectPorts at h
    cases hp : parsePart part with
    | error e => rw [hp] at h; cases h
    | ok ps =>
      rw [hp] at h
      rw [ih h p]
      simp only [List.mem_append, List.mem_cons]
      constructor
      · rintro (⟨hin | hin⟩ | ⟨q, hq, qs, hqs, hin⟩)
        · exact Or.inl hin
        · exact Or.inr ⟨part, Or.inl rfl, ps, hp, hin⟩
        · exact Or.inr ⟨q, Or.inr hq, qs, hqs, hin⟩
      · rintro (hin | ⟨q, rfl | hq, qs, hqs, hin⟩)
        · exact Or.inl (Or.inl hin)
        · rw [hp] at hqs
          cases hqs
          exact Or.inl (Or.inr hin)
        · exact Or.inr ⟨q, hq, qs, hqs, hin⟩

theorem collectPorts_error {parts : List String} {part : String}
    (hmem : part ∈ parts) {msg : String}
    (herr : parsePart part = .error msg) :
    ∀ acc, ∃ m, collectPorts parts acc = .error m := by
  induction parts with
  | nil => cases hmem
  | cons q rest ih =>
    intro acc
    unfold collectPorts
    cases hq : parsePart q with
    | error e => exact ⟨e, rfl⟩
    | ok ps =>
      rcases List.mem_cons.mp hmem with rfl | hmem'
      · rw [hq] at herr; cases herr
      · exact ih hmem' _

theorem parse_ports_ok_shape {s : String} {l : List Nat}
    (h : _parse_ports (some s) = .ok l) :
    (s = "" ∧ l = DEFAULT_PORTS) ∨
      ∃ collected, collectPorts (pySplit s ',') [] = .ok collected ∧
        collected.dedup ≠ [] ∧ l = collected.dedup.insertionSort (· ≤ ·) := by
  simp only [_parse_ports] at h
  by_cases hs : s = ""
  · rw [if_pos hs] at h
    exact Or.inl ⟨hs, (Except.ok.inj h).symm⟩
  · rw [if_neg hs] at h
    cases hc : collectPorts (pySplit s ',') [] with
    | error e => rw [hc] at h; cases h
    | ok collected =>
      rw [hc] at h
      dsimp only at h
      by_cases hd : collected.dedup = []
      · rw [if_pos hd] at h; cases h
      · rw [if_neg hd] at h
        exact Or.inr ⟨collected, rfl, hd, (Except.ok.inj h).symm⟩

theorem sorted_lt_dedup_insertionSort (c : List Nat) :
    (c.dedup.insertionSort (· ≤ ·)).Sorted (· < ·) := by
  have hle : (c.dedup.insertionSort (· ≤ ·)).Sorted (· ≤ ·) :=
    List.sorted_insertionSort _ _
  have hperm : List.Perm (c.dedup.insertionSort (· ≤ ·)) c.dedup :=
    List.perm_insertionSort _ _
  have hnd : (c.dedup.insertionSort (· ≤ ·)).Nodup :=
    hperm.nodup_iff.mpr (List.nodup_dedup c)
  exact (hle.and hnd).imp fun h => lt_of_le_of_ne h.1 h.2

/-! ## Claims about the port-specification parser -/

/-- C6: with no input the parser returns the fixed 19-element default
list unchanged; with a comma-separated string of in-range single ports
and ranges it returns the set of specified ports as a strictly
ascending, duplicate-free list — "80,443,1000-1002" yields
[80, 443, 1000, 1001, 1002] and "80,80,443" yields [80, 443]. -/
theorem portSpec_parser_correct :
    (_parse_ports none = .ok DEFAULT_PORTS ∧ DEFAULT_PORTS.length = 19)
    ∧ _parse_ports (some "80,443,1000-1002") = .ok [80, 443, 1000, 1001, 1002]
    ∧ _parse_ports (some "80,80,443") = .ok [80, 443]
    ∧ (∀ s l, _parse_ports (some s) = .ok l →
        l.Sorted (· < ·) ∧
        (s ≠ "" → ∀ p : Nat,
          p ∈ l ↔ ∃ part ∈ pySplit s ',', ∃ ps, parsePart part = .ok ps ∧ p ∈ ps)) := by
  refine ⟨⟨rfl, by decide⟩, by decide, by decide, ?_⟩
  intro s l h
  rcases parse_ports_ok_shape h with ⟨hs, rfl⟩ | ⟨collected, hc, _, rfl⟩
  · exact ⟨by decide, fun hne => absurd hs hne⟩
  · refine ⟨sorted_lt_dedup_insertionSort _, fun _ p => ?_⟩
    rw [(List.perm_insertionSort (· ≤ ·) collected.dedup).mem_iff,
        List.mem_dedup, collectPorts_mem hc p]
    simp

/-- Witness for C6 at the concrete specification "80,443". -/
theorem portSpec_parser_correct_witness :
    _parse_ports (some "80,443") = .ok [80, 443] ∧
      (([80, 443] : List Nat).Sorted (· < ·) ∧
        ("80,443" ≠ "" → ∀ p : Nat,
          p ∈ ([80, 443] : List Nat) ↔
            ∃ part ∈ pySplit "80,443" ',', ∃ ps, parsePart part = .ok ps ∧ p ∈ ps)) :=
  ⟨by decide, portSpec_parser_correct.2.2.2 "80,443" [80, 443] (by decide)⟩

end NetSpect

namespace NetSpect

/-- C7: a malformed segment — non-integer, out-of-range endpoint such as
"70000", or an inverted range such as "5-3" — fails the whole parse with
an error identifying the offending segment and no partial port set is
returned; a parse whose resulting set is empty is also an error. -/
theorem portSpec_parser_rejects_malformed :
    _parse_ports (some "70000")
        = .error "Invalid port number: 70000. Must be a number between 1-65535."
    ∧ _parse_ports (some "5-3")
        = .error "Invalid port range: 5-3. Must be numbers between 1-65535."
    ∧ (∀ s, (∃ part ∈ pySplit s ',', ∃ msg, parsePart part = .error msg) →
        ∃ msg, _parse_ports (some s) = .error msg)
    ∧ (∀ s l, _parse_ports (some s) = .ok l → l ≠ []) := by
  refine ⟨by decide, by decide, ?_, ?_⟩
  · rintro s ⟨part, hmem, msg, herr⟩
    by_cases hs : s = ""
    · subst hs
      have hsplit : pySplit "" ',' = [""] := rfl
      rw [hsplit, List.mem_singleton] at hmem
      subst hmem
      simp only [show parsePart "" = Except.ok [] from rfl] at herr
      cases herr
    · obtain ⟨m, hcol⟩ := collectPorts_error hmem herr []
      refine ⟨m, ?_⟩
      simp only [_parse_ports]
      rw [if_neg hs, hcol]
  · intro s l h
    rcases parse_ports_ok_shape h with ⟨_, rfl⟩ | ⟨collected, _, hd, rfl⟩
    · decide
    · intro hnil
      apply hd
      have hperm := List.perm_insertionSort (· ≤ ·) collected.dedup
      rw [hnil] at hperm
      exact (hperm.symm).eq_nil

/-- Witness for C7: the segment "70000" of "1,70000" is malformed, and
the whole parse fails. -/
theorem portSpec_parser_rejects_malformed_witness :
    ∃ msg, _parse_ports (some "1,70000") = .error msg :=
  portSpec_parser_rejects_malformed.2.2.1 "1,70000"
    ⟨"70000", by decide,
     "Invalid port number: 70000. Must be a number between 1-65535.", by decide⟩

/-- C10: segments that are empty after trimming are silently skipped —
"80,,443" and "80,443," both parse to [80, 443] — while a specification
consisting only of commas or whitespace is rejected with the empty-set
error "No valid ports specified.". -/
theorem portSpec_empty_segments_skipped :
    _parse_ports (some "80,,443") = .ok [80, 443]
    ∧ _parse_ports (some "80,443,") = .ok [80, 443]
    ∧ _parse_ports (some ",,") = .error "No valid ports specified."
    ∧ (∀ part, pyStrip part = "" → parsePart part = .ok []) := by
  refine ⟨by decide, by decide, by decide, ?_⟩
  intro part h
  have hd : (pyStrip part).data = [] := by rw [h]
  simp only [parsePart, hd]
  rfl

/-- Witness for C10 at the whitespace-only segment "  ". -/
theorem portSpec_empty_segments_skipped_witness :
    parsePart "  " = .ok [] :=
  portSpec_empty_segments_skipped.2.2.2 "  " (by decide)

end NetSpect

namespace NetSpect

/-! ## Helper lemmas about `ping_host` -/

theorem pingLoop_error_of_success {rs : List PingResponse}
    (h : ∃ r ∈ rs, r.success = true) :
    ∀ acc, pingLoop rs acc = .error .attributeErrorMessageSplit := by
  induction rs with
  | nil => obtain ⟨r, hr, _⟩ := h; cases hr
  | cons r rest ih =>
    intro acc
    unfold pingLoop
    by_cases hs : r.success = true
    · rw [if_pos hs]
    · rw [if_neg hs]
      obtain ⟨q, hq, hqs⟩ := h
      rcases List.mem_cons.mp hq with rfl | hq'
      · exact absurd hqs hs
      · exact ih ⟨q, hq', hqs⟩ acc

theorem pingLoop_ok_of_no_success {rs : List PingResponse}
    (h : ∀ r ∈ rs, r.success = false) :
    ∀ acc, pingLoop rs acc = .ok acc := by
  induction rs with
  | nil => intro acc; rfl
  | cons r rest ih =>
    intro acc
    unfold pingLoop
    rw [if_neg (by rw [h r (List.mem_cons_self r rest)]; exact Bool.false_ne_true)]
    exact ih (fun q hq => h q (List.mem_cons_of_mem r hq)) acc

/-- C8 (evaluating the code at the failing input): whenever at least one
probe succeeds, `ping_host` raises at the reply line (`discovery.py`
line 33, `response.message.split()` — `message` is a `pythonping`
`Message` object, not a `str`), the `except Exception` handler returns
`False`, and no statistics are ever computed or reported — in
particular the claimed 4-packet example with successes [10, 20, 30]
yields `(False, no statistics)` rather than loss 25%, min 10, max 30,
average 20 and `True`. -/
theorem ping_success_crashes_no_stats :
    ping_host 4 pingExample = (false, none)
    ∧ pingLoop pingExample initPingAcc = .error .attributeErrorMessageSplit
    ∧ ∀ (count : Nat) (responses : List PingResponse),
        (∃ r ∈ responses, r.success = true) →
        ping_host count responses = (false, none) := by
  have main : ∀ (count : Nat) (responses : List PingResponse),
      (∃ r ∈ responses, r.success = true) →
      ping_host count responses = (false, none) := by
    intro count responses h
    unfold ping_host
    rw [pingLoop_error_of_success h initPingAcc]
  exact ⟨main 4 pingExample (by decide), by decide, main⟩

/-- Witness for C8's general part at the 4-packet example with three
successful probes. -/
theorem ping_success_crashes_no_stats_witness :
    ping_host 4 pingExample = (false, none) :=
  ping_success_crashes_no_stats.2.2 4 pingExample (by decide)

/-- C9: when zero probes succeed, `ping_host` returns `False` and computes
no statistics at all — the loop's raising success branch is never entered,
the `avg_rtt = total_rtt / successful_pings` division is on the untaken
branch, and no division by zero happens. -/
theorem ping_zero_success_no_stats :
    ∀ (count : Nat) (responses : List PingResponse),
      (∀ r ∈ responses, r.success = false) →
      ping_host count responses = (false, none) := by
  intro count responses hall
  unfold ping_host
  rw [pingLoop_ok_of_no_success hall initPingAcc]
  rfl

/-- Witness for C9 at one failed probe. -/
theorem ping_zero_success_no_stats_witness :
    ping_host 4 [⟨false, 0⟩] = (false, none) :=
  ping_zero_success_no_stats 4 [⟨false, 0⟩] (by decide)

end NetSpect

namespace NetSpect

/-! ## Claims about `scan_ports` and the `scan` command -/

/-- C3 (evaluating the code at the failing input): scanning a resolvable
target on which every probed port is closed makes `scan_ports` raise
`NameError` — the `else: print_warning(...)` branch uses a name that
`discovery.py` never imports — so the scan does not print its summary,
does not return, and no port is accounted for in any final summary. -/
theorem scan_no_open_ports_crashes :
    scan_ports closedEnv "localhost" [9999]
      = ([print_info "Scanning localhost (127.0.0.1) for 1 port(s)..."],
         .error .nameErrorNotDefined) := by
  decide

/-- C1 (counterexample): with port 80 open, `scan_ports` returns the
two-component record ("80", "open"); no returned record is a triple, so
the returned list does not carry the service name. -/
theorem scan_returns_pairs_counterexample :
    (scan_ports openEnv "host" [80]).2 = .ok [["80", "open"]]
    ∧ ¬ ∃ a b c : String, (["80", "open"] : List String) = [a, b, c] := by
  refine ⟨by decide, ?_⟩
  rintro ⟨a, b, c, h⟩
  simp at h

/-- C1 (amended): for a resolvable target, when `scan_ports` returns, its
returned list has exactly one record per open port, but each record is
the pair (port, "open"): the best-effort service name (defaulting to
"unknown") is carried only by the internal `open_ports` records used for
display, and is dropped from the returned value. -/
theorem scan_returns_open_port_pairs :
    ∀ (env : NetEnv) (target : String) (ports : List Nat) (ip : String)
      (res : List (List String)),
      env.resolve target = some ip →
      (scan_ports env target ports).2 = .ok res →
      res = (scanOpenRecords env ip ports).map (fun r => [toString r.1, r.2.1])
      ∧ (∀ r ∈ scanOpenRecords env ip ports,
          r.2.1 = "open" ∧ r.2.2 = serviceName env r.1)
      ∧ ∀ x ∈ res, ∃ p : Nat, x = [toString p, "open"] := by
  intro env target ports ip res hres hok
  have hrec : ∀ r ∈ scanOpenRecords env ip ports,
      r.2.1 = "open" ∧ r.2.2 = serviceName env r.1 := by
    intro r hr
    unfold scanOpenRecords at hr
    rw [List.mem_filterMap] at hr
    obtain ⟨p, _, hp⟩ := hr
    by_cases hc : env.connect ip p = true
    · rw [if_pos hc] at hp
      obtain rfl := Option.some.inj hp
      exact ⟨rfl, rfl⟩
    · rw [if_neg hc] at hp
      cases hp
  have hmain :
      res = (scanOpenRecords env ip ports).map (fun r => [toString r.1, r.2.1]) := by
    simp only [scan_ports, hres] at hok
    by_cases hopen : scanOpenRecords env ip ports = []
    · rw [if_pos hopen] at hok
      cases hok
    · rw [if_neg hopen] at hok
      exact (Except.ok.inj hok).symm
  refine ⟨hmain, hrec, ?_⟩
  intro x hx
  rw [hmain, List.mem_map] at hx
  obtain ⟨r, hr, rfl⟩ := hx
  exact ⟨r.1, by rw [(hrec r hr).1]⟩

/-- Witness for the amended C1 with port 80 open. -/
theorem scan_returns_open_port_pairs_witness :
    [["80", "open"]]
        = (scanOpenRecords openEnv "10.0.0.1" [80]).map (fun r => [toString r.1, r.2.1])
    ∧ (∀ r ∈ scanOpenRecords openEnv "10.0.0.1" [80],
        r.2.1 = "open" ∧ r.2.2 = serviceName openEnv r.1)
    ∧ ∀ x ∈ [["80", "open"]], ∃ p : Nat, x = [toString p, "open"] :=
  scan_returns_open_port_pairs openEnv "host" [80] "10.0.0.1" [["80", "open"]]
    rfl (by decide)

/-- C2 (counterexample): with an unresolvable target, the `scan` command
ends with exit code 0, not with exit code 1. -/
theorem scan_unresolvable_exit_code :
    scanCommand unresEnv "nohost.example" none = .exits 0
    ∧ scanCommand unresEnv "nohost.example" none ≠ .exits 1 := by
  exact ⟨by decide, by decide⟩

/-- C2 (amended): resolution failure aborts the scan before any per-port
connection attempt (the result does not depend on per-port connectivity),
returns the empty result list, and reports the failure as a single
top-level error line; the `scan` command then ends normally with exit
code 0 rather than exit code 1. -/
theorem scan_unresolvable_aborts :
    ∀ (env : NetEnv) (target : String) (portsStr : Option String) (ports : List Nat),
      env.resolve target = none →
      _parse_ports portsStr = .ok ports →
      scan_ports env target ports
          = ([print_error ("Cannot resolve hostname: " ++ target
              ++ ". Please check the name or use an IP address.")], .ok [])
      ∧ scanCommand env target portsStr = .exits 0
      ∧ ∀ c, scan_ports { env with connect := c } target ports
          = scan_ports env target ports := by
  intro env target portsStr ports hres hparse
  have h1 : scan_ports env target ports
      = ([print_error ("Cannot resolve hostname: " ++ target
          ++ ". Please check the name or use an IP address.")], .ok []) := by
    simp only [scan_ports, hres]
  refine ⟨h1, ?_, ?_⟩
  · simp only [scanCommand, hparse, h1]
  · intro c
    have hres' : ({ env with connect := c } : NetEnv).resolve target = none := hres
    simp only [scan_ports, hres, hres']

/-- Witness for the amended C2 at a concrete unresolvable target. -/
theorem scan_unresolvable_aborts_witness :
    scan_ports unresEnv "nohost.example" DEFAULT_PORTS
        = ([print_error ("Cannot resolve hostname: " ++ "nohost.example"
            ++ ". Please check the name or use an IP address.")], .ok [])
    ∧ scanCommand unresEnv "nohost.example" none = .exits 0
    ∧ ∀ c, scan_ports { unresEnv with connect := c } "nohost.example" DEFAULT_PORTS
        = scan_ports unresEnv "nohost.example" DEFAULT_PORTS :=
  scan_unresolvable_aborts unresEnv "nohost.example" none DEFAULT_PORTS rfl rfl

end NetSpect

namespace NetSpect

/-! ## Claims about `resolve_hostname` -/

/-- C4 (evaluating the code at the failing input): a `NoAnswer` outcome
makes `resolve_hostname` raise `NameError` — the handler calls
`print_warning`, which `dns_utils.py` never imports — instead of
appending "No Answer", and the failure aborts the whole call so the
remaining requested record types are never queried. -/
theorem dns_noanswer_crashes :
    resolve_hostname noAnswerEnv "example.com" ["A", "MX"]
        = .error .nameErrorNotDefined
    ∧ ∀ (env : DnsEnv) (hostname rtype : String) (rest : List String)
        (acc : List (String × List String)),
        pyUpper rtype ∈ SUPPORTED_RECORD_TYPES →
        env.query hostname (pyUpper rtype) = .noAnswer →
        resolveTypes env hostname (rtype :: rest) acc
          = .error .nameErrorNotDefined := by
  refine ⟨by decide, ?_⟩
  intro env hostname rtype rest acc hsup hq
  have hqt : queryType env hostname rtype = .error .nameErrorNotDefined := by
    unfold queryType
    rw [if_pos hsup, hq]
  unfold resolveTypes
  rw [hqt]

/-- Witness for C4: a `NoAnswer` on type "A" aborts the loop before the
requested "MX" type is ever queried. -/
theorem dns_noanswer_crashes_witness :
    resolveTypes noAnswerEnv "example.com" ("A" :: ["MX"]) []
        = .error .nameErrorNotDefined :=
  dns_noanswer_crashes.2 noAnswerEnv "example.com" "A" ["MX"] []
    (by decide) (by decide)

/-- C5 (counterexample): an NS answer whose canonical text is
"ns1.example.com." is rendered by the code with its trailing root-label
dot kept — `rdata.to_text(omit_final_dot=True)` at `dns_utils.py`
line 43 passes the keyword to dnspython's `Rdata.to_text`, which ignores
it — so it is not the claimed dot-stripped "ns1.example.com"; a CNAME
answer behaves the same way. -/
theorem dns_ns_keeps_trailing_dot :
    formatAnswer "NS" (.plain "ns1.example.com.") = "ns1.example.com."
    ∧ formatAnswer "NS" (.plain "ns1.example.com.") ≠ "ns1.example.com"
    ∧ formatAnswer "CNAME" (.plain "alias.example.com.")
        = "alias.example.com." := by
  exact ⟨by decide, by decide, by decide⟩

/-- C5 (amended): MX, SOA and SRV answers are formatted with their name
fields rendered by `Name.to_text(omit_final_dot=True)`, i.e. without the
trailing root-label dot, exactly in the claimed templates; TXT answers
join all character-string segments with single spaces; but A/AAAA/CNAME/NS
answers are rendered by `Rdata.to_text`, which ignores the
`omit_final_dot=True` keyword, so they are the rdata's canonical text
unchanged — NS and CNAME answers keep their trailing root-label dot
(A/AAAA address text carries no trailing dot in the first place). -/
theorem dns_answer_formatting :
    (∀ (preference : Nat) (exchange : String),
      formatAnswer "MX" (.mx preference exchange)
        = "Preference: " ++ toString preference ++ ", Exchange: "
            ++ omitFinalDot exchange)
    ∧ (∀ (mname rname : String) (serial : Nat),
      formatAnswer "SOA" (.soa mname rname serial)
        = "MNAME: " ++ omitFinalDot mname ++ ", RNAME: " ++ omitFinalDot rname
            ++ ", Serial: " ++ toString serial)
    ∧ (∀ (priority weight port : Nat) (tgt : String),
      formatAnswer "SRV" (.srv priority weight port tgt)
        = "Priority: " ++ toString priority ++ ", Weight: " ++ toString weight
            ++ ", Port: " ++ toString port ++ ", Target: " ++ omitFinalDot tgt)
    ∧ (∀ segments : List String,
      formatAnswer "TXT" (.txt segments) = joinSpace segments)
    ∧ (∀ text : String, formatAnswer "A" (.plain text) = text)
    ∧ (∀ text : String, formatAnswer "AAAA" (.plain text) = text)
    ∧ (∀ text : String, formatAnswer "CNAME" (.plain text) = text)
    ∧ (∀ text : String, formatAnswer "NS" (.plain text) = text)
    ∧ (∀ l : List Char, omitFinalDot (String.mk (l ++ ['.'])) = String.mk l)
    ∧ omitFinalDot "mail.example.com." = "mail.example.com" := by
  refine ⟨fun p e => rfl, fun mn rn sn => rfl, fun pr w pt t => rfl,
    fun ss => rfl, fun t => rfl, fun t => rfl, fun t => rfl, fun t => rfl,
    ?_, by decide⟩
  intro l
  simp [omitFinalDot, List.getLast?_concat, List.dropLast_concat]

end NetSpect
